import Mathlib

/-!
Verification development for the question-to-Cypher translation engine in
`nl_to_cypher.py` (class `NLToCypherConverter`).  The Python code is shallowly
embedded: regular-expression matching over the eight fixed query patterns is
implemented by a fueled backtracking matcher with Python `re` semantics
(leftmost match, lazy `(.+?)` shortest-first, alternation left-first, greedy
`(?:the )?`), handlers are pure functions returning `Except PyErr String`
(an `Except.error` models an uncaught Python exception), and the
orchestrator threads explicit oracles for the Neo4j driver and the OpenAI
client through an `Env` record.
-/

set_option maxRecDepth 8000

namespace TKGF1

/-- Kinds of Python exceptions relevant to the embedded code paths. -/
inductive PyErr where
  | typeError
  | keyError
  | indexError
  | runtimeError
deriving DecidableEq, Repr

/-! ### Character-list string utilities -/

/-- Boolean prefix test on character lists. -/
def isPrefixChars : List Char → List Char → Bool
  | [], _ => true
  | _ :: _, [] => false
  | c :: cs, d :: ds => c == d && isPrefixChars cs ds

/-- Boolean substring test: does `needle` occur contiguously in the haystack?
Models Python's `in` / the presence of a substring. -/
def containsSub : List Char → List Char → Bool
  | [], n => isPrefixChars n []
  | c :: t, n => isPrefixChars n (c :: t) || containsSub t n

/-- Substring test on `String`s (haystack first). -/
def strContains (hay needle : String) : Bool :=
  containsSub hay.data needle.data

/-- The whitespace characters stripped by Python `str.strip()`. -/
def pySpace (c : Char) : Bool :=
  c == ' ' || c == '\t' || c == '\n' || c == '\r' || c == '\x0b' || c == '\x0c'

/-- Python `str.strip()`. -/
def pyStrip (s : String) : String :=
  String.mk (((s.data.dropWhile pySpace).reverse.dropWhile pySpace).reverse)

/-- Value of a digit string under Python `int()` (only ever applied to
strings produced by a `\d{4}` capture group, which are four digit characters). -/
def digitsToNat (cs : List Char) : Nat :=
  cs.foldl (fun a c => a * 10 + (c.toNat - 48)) 0

/-- Python `int()` on the digit strings coming out of `\d{4}` capture groups. -/
def pyIntDigits (s : String) : Nat := digitsToNat s.data

/-! ### Regular-expression engine

Tokens cover exactly the constructs used by the eight patterns in
`NLToCypherConverter.query_patterns`: literals, the greedy optional literal
`(?:the )?`, non-capturing and capturing alternations of literals, the lazy
capturing group `(.+?)` (as `lazyAcc` carrying the reversed consumed prefix),
the capturing `(\d{4})`, and the trailing `(?:\?|$)`. -/

inductive Tok where
  | lit (s : String)
  | optStr (s : String)
  | alt (ls : List String)
  | altCap (ls : List String)
  | lazyAcc (acc : List Char)
  | digits4
  | qmarkOrEnd

/-- Backtracking matcher, anchored at the current position.  Returns the list
of captured groups in order on success.  Backtracking priority mirrors
Python `re`: alternatives left to right, lazy `(.+?)` shortest first, greedy
optional consumes first, `(?:\?|$)` prefers the literal `?`.  The fuel
argument only bounds recursion depth (callers supply enough). -/
def matchTF : Nat → List Tok → List Char → Option (List String)
  | 0, _, _ => none
  | _ + 1, [], _ => some []
  | fuel + 1, Tok.lit l :: rest, s =>
      if isPrefixChars l.data s then matchTF fuel rest (s.drop l.data.length) else none
  | fuel + 1, Tok.optStr l :: rest, s =>
      if isPrefixChars l.data s then
        match matchTF fuel rest (s.drop l.data.length) with
        | some gs => some gs
        | none => matchTF fuel rest s
      else matchTF fuel rest s
  | fuel + 1, Tok.alt ls :: rest, s =>
      match ls with
      | [] => none
      | l :: ls' =>
          match matchTF fuel (Tok.lit l :: rest) s with
          | some gs => some gs
          | none => matchTF fuel (Tok.alt ls' :: rest) s
  | fuel + 1, Tok.altCap ls :: rest, s =>
      match ls with
      | [] => none
      | l :: ls' =>
          if isPrefixChars l.data s then
            match matchTF fuel rest (s.drop l.data.length) with
            | some gs => some (l :: gs)
            | none => matchTF fuel (Tok.altCap ls' :: rest) s
          else matchTF fuel (Tok.altCap ls' :: rest) s
  | fuel + 1, Tok.lazyAcc acc :: rest, s =>
      match s with
      | [] => none
      | c :: s' =>
          if c == '\n' then none
          else
            match matchTF fuel rest s' with
            | some gs => some (String.mk (c :: acc).reverse :: gs)
            | none => matchTF fuel (Tok.lazyAcc (c :: acc) :: rest) s'
  | fuel + 1, Tok.digits4 :: rest, s =>
      match s with
      | c1 :: c2 :: c3 :: c4 :: s' =>
          if c1.isDigit && c2.isDigit && c3.isDigit && c4.isDigit then
            match matchTF fuel rest s' with
            | some gs => some (String.mk [c1, c2, c3, c4] :: gs)
            | none => none
          else none
      | _ => none
  | fuel + 1, Tok.qmarkOrEnd :: rest, s =>
      match s with
      | '?' :: s' => matchTF fuel rest s'
      | [] => matchTF fuel rest []
      | _ => none

/-- Try a match at every start position, left to right (Python `re.search`). -/
def searchAux (toks : List Tok) (fuel : Nat) : List Char → Option (List String)
  | [] => matchTF fuel toks []
  | c :: s' =>
      match matchTF fuel toks (c :: s') with
      | some gs => some gs
      | none => searchAux toks fuel s'

/-- `re.search(pattern, s)` for a compiled token list, returning the captured
groups of the leftmost match. -/
def reSearch (toks : List Tok) (s : String) : Option (List String) :=
  searchAux toks (4 * (s.data.length + 60)) s.data

/-! ### The eight query patterns (in registration order) -/

/-- `who was (.+?)'s? race engineer (?:when|in|for|during) (.+?)(?:\?|$)` -/
def p1toks : List Tok :=
  [Tok.lit "who was ", Tok.lazyAcc [], Tok.lit "'", Tok.optStr "s",
   Tok.lit " race engineer ", Tok.alt ["when", "in", "for", "during"],
   Tok.lit " ", Tok.lazyAcc [], Tok.qmarkOrEnd]

/-- `who was (.+?) race engineer for (before|after|during) (\d{4})(?:\?|$)` -/
def p2toks : List Tok :=
  [Tok.lit "who was ", Tok.lazyAcc [], Tok.lit " race engineer for ",
   Tok.altCap ["before", "after", "during"], Tok.lit " ", Tok.digits4,
   Tok.qmarkOrEnd]

/-- `what team did (.+?) (?:drive for|race for) (?:in|during) (\d{4})(?:\?|$)` -/
def p3toks : List Tok :=
  [Tok.lit "what team did ", Tok.lazyAcc [], Tok.lit " ",
   Tok.alt ["drive for", "race for"], Tok.lit " ", Tok.alt ["in", "during"],
   Tok.lit " ", Tok.digits4, Tok.qmarkOrEnd]

/-- `who won (?:the )?championship (?:in|during) (\d{4})(?:\?|$)` -/
def p4toks : List Tok :=
  [Tok.lit "who won ", Tok.optStr "the ", Tok.lit "championship ",
   Tok.alt ["in", "during"], Tok.lit " ", Tok.digits4, Tok.qmarkOrEnd]

/-- `which team dominated (?:the )?(\d{4}) season(?:\?|$)` -/
def p5toks : List Tok :=
  [Tok.lit "which team dominated ", Tok.optStr "the ", Tok.digits4,
   Tok.lit " season", Tok.qmarkOrEnd]

/-- `what team did (.+?) (?:drive for|race for) (?:before|after) (\d{4})(?:\?|$)` -/
def p6toks : List Tok :=
  [Tok.lit "what team did ", Tok.lazyAcc [], Tok.lit " ",
   Tok.alt ["drive for", "race for"], Tok.lit " ", Tok.alt ["before", "after"],
   Tok.lit " ", Tok.digits4, Tok.qmarkOrEnd]

/-- `who won (?:the )?championship (?:before|after) (\d{4})(?:\?|$)` -/
def p7toks : List Tok :=
  [Tok.lit "who won ", Tok.optStr "the ", Tok.lit "championship ",
   Tok.alt ["before", "after"], Tok.lit " ", Tok.digits4, Tok.qmarkOrEnd]

/-- `which team dominated (?:the )?season (?:before|after) (\d{4})(?:\?|$)` -/
def p8toks : List Tok :=
  [Tok.lit "which team dominated ", Tok.optStr "the ", Tok.lit "season ",
   Tok.alt ["before", "after"], Tok.lit " ", Tok.digits4, Tok.qmarkOrEnd]

/-! ### Temporal parsing (`_parse_temporal_context` and `re.search(r'\d{4}', ...)`) -/

/-- Does the current position start with four digit characters?  If so return
them (the `\d{4}` match group). -/
def fourDigitsAt : List Char → Option (List Char)
  | c1 :: c2 :: c3 :: c4 :: _ =>
      if c1.isDigit && c2.isDigit && c3.isDigit && c4.isDigit then
        some [c1, c2, c3, c4]
      else none
  | _ => none

/-- `re.search(r'\d{4}', s)`: the leftmost run of four digits. -/
def findYearStr : List Char → Option (List Char)
  | [] => none
  | c :: rest =>
      match fourDigitsAt (c :: rest) with
      | some g => some g
      | none => findYearStr rest

/-- `NLToCypherConverter._parse_temporal_context`: despite its annotation
`Tuple[Optional[int], Optional[str]]`, the function returns the single value
`int(year_match.group())` (or `None`), i.e. an optional year only. -/
def _parse_temporal_context (context : String) : Option Nat :=
  (findYearStr context.data).map digitsToNat

/-- Python tuple unpacking `year, temporal_relation = x` applied to the value
returned by `_parse_temporal_context`.  That value is an `int` or `None`,
neither of which is iterable, so the unpacking raises `TypeError`
unconditionally. -/
def pyUnpack2 (_x : Option Nat) : Except PyErr (Nat × String) :=
  .error PyErr.typeError

/-- Python truthiness of `year` where `year` is an `int` or `None`
(`None` and `0` are falsy). -/
def pyTruthyNat (o : Option Nat) : Bool :=
  match o with
  | some n => n != 0
  | none => false

/-! ### Query template handlers -/

/-- `NLToCypherConverter._build_temporal_filter`. -/
def _build_temporal_filter (year : Nat) (temporal_relation : String) : String :=
  if temporal_relation = "before" then "r.year < " ++ Nat.repr year
  else if temporal_relation = "after" then "r.year > " ++ Nat.repr year
  else "r.year = " ++ Nat.repr year

/-- `NLToCypherConverter._race_engineer_query`. -/
def _race_engineer_query (driver_name year_context : String) : String :=
  let year := (findYearStr year_context.data).map digitsToNat
  if pyTruthyNat year then
    "\n            MATCH (driver:Entity \x7bname: '" ++ driver_name ++
    "'\x7d)-[r:RELATION]->(engineer:Entity)\n            WHERE r.type CONTAINS 'engineer' AND r.year = " ++
    Nat.repr (year.getD 0) ++
    "\n            RETURN engineer.name as answer, r.year as year\n            "
  else
    "\n            MATCH (driver:Entity \x7bname: '" ++ driver_name ++
    "'\x7d)-[r:RELATION]->(engineer:Entity)\n            WHERE r.type CONTAINS 'engineer'\n            RETURN engineer.name as answer, r.year as year\n            ORDER BY r.year DESC\n            LIMIT 1\n            "

/-- `NLToCypherConverter._race_engineer_reverse_relative_query`.  The source
applies `int(year)` where `year` was captured by `\d{4}` and is therefore a
four-digit string, so the conversion never fails; it is embedded as the total
`pyIntDigits`. -/
def _race_engineer_reverse_relative_query
    (engineer_name temporal_relation year : String) : String :=
  if temporal_relation = "before" ∨ temporal_relation = "after" then
    let temporal_filter := _build_temporal_filter (pyIntDigits year) temporal_relation
    let order_clause :=
      if temporal_relation = "before" then "ORDER BY r.year DESC" else "ORDER BY r.year ASC"
    "\n            MATCH (engineer:Entity \x7bname: '" ++ engineer_name ++
    "'\x7d)-[r:RELATION]->(driver:Entity)\n            WHERE r.type CONTAINS 'engineer' AND " ++
    temporal_filter ++
    "\n            RETURN driver.name as answer, r.year as year\n            " ++
    order_clause ++ "\n            LIMIT 5\n            "
  else
    "\n            MATCH (engineer:Entity \x7bname: '" ++ engineer_name ++
    "'\x7d)-[r:RELATION]->(driver:Entity)\n            WHERE r.type CONTAINS 'engineer' AND r.year = " ++
    year ++
    "\n            RETURN driver.name as answer, r.year as year\n            "

/-- `NLToCypherConverter._team_query`. -/
def _team_query (driver_name year : String) : String :=
  "\n        MATCH (driver:Entity \x7bname: '" ++ driver_name ++
  "'\x7d)-[r:RELATION]->(team:Entity)\n        WHERE (r.type CONTAINS 'drove' OR r.type CONTAINS 'team' OR r.type CONTAINS 'race')\n        AND r.year = " ++
  year ++
  "\n        RETURN team.name as answer, r.year as year\n        "

/-- `NLToCypherConverter._team_relative_query`.  The first statement unpacks
the single optional year returned by `_parse_temporal_context` into two
variables, which raises `TypeError` before any query is built; the remainder
of the source body is transcribed after the (never succeeding) unpacking. -/
def _team_relative_query (driver_name year_context : String) : Except PyErr String :=
  match pyUnpack2 (_parse_temporal_context year_context) with
  | .error e => .error e
  | .ok (year, temporal_relation) =>
      if (year != 0) && (temporal_relation != "") then
        let temporal_filter := _build_temporal_filter year temporal_relation
        let order_clause :=
          if temporal_relation = "before" then "ORDER BY r.year DESC" else "ORDER BY r.year ASC"
        .ok ("\n            MATCH (driver:Entity \x7bname: '" ++ driver_name ++
          "'\x7d)-[r:RELATION]->(team:Entity)\n            WHERE (r.type CONTAINS 'drove' OR r.type CONTAINS 'team' OR r.type CONTAINS 'race')\n            AND " ++
          temporal_filter ++
          "\n            RETURN team.name as answer, r.year as year\n            " ++
          order_clause ++ "\n            LIMIT 5\n            ")
      else
        .ok ("\n            MATCH (driver:Entity \x7bname: '" ++ driver_name ++
          "'\x7d)-[r:RELATION]->(team:Entity)\n            WHERE (r.type CONTAINS 'drove' OR r.type CONTAINS 'team' OR r.type CONTAINS 'race')\n            RETURN team.name as answer, r.year as year\n            ORDER BY r.year DESC\n            LIMIT 1\n            ")

/-- `NLToCypherConverter._champion_query`. -/
def _champion_query (year : String) : String :=
  "\n        MATCH (driver:Entity)-[r:RELATION]->(championship:Entity)\n        WHERE (r.type CONTAINS 'champion' OR r.type CONTAINS 'won')\n        AND r.year = " ++
  year ++
  "\n        RETURN driver.name as answer, r.year as year\n        "

/-- `NLToCypherConverter._champion_relative_query`.  Same unconditional
`TypeError` from the tuple unpacking as `_team_relative_query`. -/
def _champion_relative_query (year_context : String) : Except PyErr String :=
  match pyUnpack2 (_parse_temporal_context year_context) with
  | .error e => .error e
  | .ok (year, temporal_relation) =>
      if (year != 0) && (temporal_relation != "") then
        let temporal_filter := _build_temporal_filter year temporal_relation
        let order_clause :=
          if temporal_relation = "before" then "ORDER BY r.year DESC" else "ORDER BY r.year ASC"
        .ok ("\n            MATCH (driver:Entity)-[r:RELATION]->(championship:Entity)\n            WHERE (r.type CONTAINS 'champion' OR r.type CONTAINS 'won')\n            AND " ++
          temporal_filter ++
          "\n            RETURN driver.name as answer, r.year as year\n            " ++
          order_clause ++ "\n            LIMIT 5\n            ")
      else
        .ok ("\n            MATCH (driver:Entity)-[r:RELATION]->(championship:Entity)\n            WHERE (r.type CONTAINS 'champion' OR r.type CONTAINS 'won')\n            RETURN driver.name as answer, r.year as year\n            ORDER BY r.year DESC\n            LIMIT 1\n            ")

/-- `NLToCypherConverter._dominant_team_query`. -/
def _dominant_team_query (year : String) : String :=
  "\n        MATCH (team:Entity)-[r:RELATION]->(achievement:Entity)\n        WHERE r.year = " ++
  year ++
  "\n        AND (r.type CONTAINS 'won' OR r.type CONTAINS 'champion' OR r.type CONTAINS 'dominated')\n        RETURN team.name as answer, count(r) as dominance_score\n        ORDER BY dominance_score DESC\n        LIMIT 1\n        "

/-- `NLToCypherConverter._dominant_team_relative_query`.  Same unconditional
`TypeError` from the tuple unpacking as `_team_relative_query`. -/
def _dominant_team_relative_query (year_context : String) : Except PyErr String :=
  match pyUnpack2 (_parse_temporal_context year_context) with
  | .error e => .error e
  | .ok (year, temporal_relation) =>
      if (year != 0) && (temporal_relation != "") then
        let temporal_filter := _build_temporal_filter year temporal_relation
        let order_clause :=
          if temporal_relation = "before" then "ORDER BY dominance_score DESC, r.year DESC"
          else "ORDER BY dominance_score DESC, r.year ASC"
        .ok ("\n            MATCH (team:Entity)-[r:RELATION]->(achievement:Entity)\n            WHERE " ++
          temporal_filter ++
          "\n            AND (r.type CONTAINS 'won' OR r.type CONTAINS 'champion' OR r.type CONTAINS 'dominated')\n            RETURN team.name as answer, count(r) as dominance_score, r.year as year\n            " ++
          order_clause ++ "\n            LIMIT 5\n            ")
      else
        .ok ("\n            MATCH (team:Entity)-[r:RELATION]->(achievement:Entity)\n            WHERE (r.type CONTAINS 'won' OR r.type CONTAINS 'champion' OR r.type CONTAINS 'dominated')\n            RETURN team.name as answer, count(r) as dominance_score\n            ORDER BY dominance_score DESC\n            LIMIT 1\n            ")

/-! ### Dispatch from captured groups to handlers

`rule_based_query` calls `pattern_info['template'](*match.groups())`: the
captured groups are passed positionally.  A group count incompatible with the
handler's parameter list would raise `TypeError` (caught by the loop). -/

def handler_race_engineer : List String → Except PyErr String
  | [a, b] => .ok (_race_engineer_query a b)
  | _ => .error PyErr.typeError

def handler_race_engineer_reverse_relative : List String → Except PyErr String
  | [a, b, c] => .ok (_race_engineer_reverse_relative_query a b c)
  | _ => .error PyErr.typeError

def handler_team : List String → Except PyErr String
  | [a, b] => .ok (_team_query a b)
  | _ => .error PyErr.typeError

def handler_champion : List String → Except PyErr String
  | [a] => .ok (_champion_query a)
  | _ => .error PyErr.typeError

def handler_dominant_team : List String → Except PyErr String
  | [a] => .ok (_dominant_team_query a)
  | _ => .error PyErr.typeError

def handler_team_relative : List String → Except PyErr String
  | [a, b] => _team_relative_query a b
  | _ => .error PyErr.typeError

def handler_champion_relative : List String → Except PyErr String
  | [a] => _champion_relative_query a
  | _ => .error PyErr.typeError

def handler_dominant_team_relative : List String → Except PyErr String
  | [a] => _dominant_team_relative_query a
  | _ => .error PyErr.typeError

/-- `NLToCypherConverter.query_patterns`: the ordered rule table. -/
def query_patterns : List (List Tok × (List String → Except PyErr String)) :=
  [(p1toks, handler_race_engineer),
   (p2toks, handler_race_engineer_reverse_relative),
   (p3toks, handler_team),
   (p4toks, handler_champion),
   (p5toks, handler_dominant_team),
   (p6toks, handler_team_relative),
   (p7toks, handler_champion_relative),
   (p8toks, handler_dominant_team_relative)]

/-! ### The rule-matching loop -/

/-- The loop body of `rule_based_query`: scan rules in order; on a pattern
match invoke the handler; on handler failure `continue` with the remaining
rules. -/
def ruleLoop : List (List Tok × (List String → Except PyErr String)) → String → Option String
  | [], _ => none
  | (toks, h) :: rest, q =>
      match reSearch toks q with
      | none => ruleLoop rest q
      | some gs =>
          match h gs with
          | .ok cypher => some cypher
          | .error _ => ruleLoop rest q

/-- `NLToCypherConverter.rule_based_query`. -/
def rule_based_query (question : String) : Option String :=
  ruleLoop query_patterns (pyStrip question)

/-- Index and captured groups of the first rule whose pattern matches. -/
def firstMatchAux (i : Nat) :
    List (List Tok × (List String → Except PyErr String)) → String → Option (Nat × List String)
  | [], _ => none
  | (toks, _) :: rest, q =>
      match reSearch toks q with
      | some gs => some (i, gs)
      | none => firstMatchAux (i + 1) rest q

/-- First firing rule (index in registration order, captured groups) for a
question, after stripping, exactly as the loop in `rule_based_query` scans. -/
def firstMatch (question : String) : Option (Nat × List String) :=
  firstMatchAux 0 query_patterns (pyStrip question)

/-- The handler registered at position `i` of `query_patterns`. -/
def handlerAt (i : Nat) : List String → Except PyErr String :=
  match query_patterns.drop i with
  | [] => fun _ => .error PyErr.typeError
  | p :: _ => p.2

/-- Instrumented variant of the loop recording, in order, the indices of the
rules whose handler is actually invoked (i.e. whose pattern matched). -/
def ruleAttemptsAux (i : Nat) :
    List (List Tok × (List String → Except PyErr String)) → String → List Nat
  | [], _ => []
  | (toks, h) :: rest, q =>
      match reSearch toks q with
      | none => ruleAttemptsAux (i + 1) rest q
      | some gs =>
          match h gs with
          | .ok _ => [i]
          | .error _ => i :: ruleAttemptsAux (i + 1) rest q

/-- Indices of rules whose handlers get invoked while answering `question`
via `rule_based_query`. -/
def handlerAttempts (question : String) : List Nat :=
  ruleAttemptsAux 0 query_patterns (pyStrip question)

/-! ### Result rows and the answer formatter -/

/-- Scalar values stored in a result row (Neo4j record turned into a dict). -/
inductive Val where
  | i (n : Int)
  | s (t : String)
  | none
deriving DecidableEq, Repr

/-- Python `str()` of an `int`. -/
def intRepr (n : Int) : String :=
  if n < 0 then "-" ++ Nat.repr n.natAbs else Nat.repr n.natAbs

/-- Python `str()` / f-string rendering of a row value. -/
def Val.toStr : Val → String
  | .i n => intRepr n
  | .s t => t
  | .none => "None"

/-- Python truthiness of a row value (`if year:`). -/
def Val.truthy : Val → Bool
  | .i n => n != 0
  | .s t => t != ""
  | .none => false

/-- A result row: a dict from column name to value, in insertion order. -/
abbrev Row := List (String × Val)

/-- Dict lookup `key in row` / `row[key]` / `row.get(key)`. -/
def rowGet : Row → String → Option Val
  | [], _ => Option.none
  | (k, v) :: rest, key => if k = key then some v else rowGet rest key

/-- `str(list(result.values())[0])`: the first column's value of a row;
raises `IndexError` on an empty dict. -/
def rowFirstValStr : Row → Except PyErr String
  | [] => .error PyErr.indexError
  | (_, v) :: _ => .ok v.toStr

/-- The single-row branch of `_format_answer`: `"<answer> (in <year>)"` when a
truthy `year` is present, else `str(answer)`; rows without an `answer` column
render their first value. -/
def formatRowSingle (result : Row) : Except PyErr String :=
  match rowGet result "answer" with
  | some answer =>
      let year := (rowGet result "year").getD (Val.s "")
      if year.truthy then .ok (answer.toStr ++ " (in " ++ year.toStr ++ ")")
      else .ok answer.toStr
  | Option.none => rowFirstValStr result

/-- The per-row rendering of the multiple-row branch of `_format_answer`:
`"<answer> (<year>)"` (note: no `"in "`). -/
def formatRowMulti (result : Row) : Except PyErr String :=
  match rowGet result "answer" with
  | some answer =>
      let year := (rowGet result "year").getD (Val.s "")
      if year.truthy then .ok (answer.toStr ++ " (" ++ year.toStr ++ ")")
      else .ok answer.toStr
  | Option.none => rowFirstValStr result

/-- Render each row of the multiple-row branch, propagating the first error. -/
def formatRowsMulti : List Row → Except PyErr (List String)
  | [] => .ok []
  | r :: rs =>
      match formatRowMulti r with
      | .error e => .error e
      | .ok s =>
          match formatRowsMulti rs with
          | .error e => .error e
          | .ok ss => .ok (s :: ss)

/-- Python `"; ".join(answers)`. -/
def joinSemicolon : List String → String
  | [] => ""
  | s :: rest => rest.foldl (fun acc x => acc ++ "; " ++ x) s

/-- `NLToCypherConverter._format_answer`. -/
def _format_answer (results : List Row) (_question : String) : Except PyErr String :=
  match results with
  | [] => .ok "I couldn't find an answer to that question in the knowledge graph."
  | [result] => formatRowSingle result
  | _ =>
      match formatRowsMulti (results.take 5) with
      | .error e => .error e
      | .ok answers => .ok (joinSemicolon answers)

/-! ### External collaborators

The Neo4j driver and the OpenAI client are modelled as oracles: arbitrary
functions from the query/prompt text to either a result (`Except.ok`) or a
raised exception (`Except.error`). -/

structure Env where
  /-- Is `self.openai_client` non-`None`? -/
  hasOpenAI : Bool
  /-- `session.run(...)` inside `_get_schema_info` (NOT wrapped in try/except). -/
  schemaRun : String → Except PyErr (List Row)
  /-- The OpenAI chat-completion call: (system prompt, user prompt) to content. -/
  llmComplete : String → String → Except PyErr String
  /-- `session.run(cypher)` inside `execute_query` (wrapped in try/except). -/
  storeRun : String → Except PyErr (List Row)

/-- First schema query run by `_get_schema_info`. -/
def relTypesQuery : String :=
  "\n            MATCH ()-[r:RELATION]->()\n            RETURN DISTINCT r.type as rel_type\n            LIMIT 10\n            "

/-- Second schema query run by `_get_schema_info`. -/
def entitiesQuery : String :=
  "\n            MATCH (e:Entity)\n            RETURN e.name as name\n            LIMIT 20\n            "

/-- What `_get_schema_info` computes. -/
structure SchemaInfo where
  relationship_types : List Val
  sample_entities : List Val

/-- `[record[key] for record in rows]`; a row missing the key raises
`KeyError`. -/
def getVals (key : String) : List Row → Except PyErr (List Val)
  | [] => .ok []
  | r :: rest =>
      match rowGet r key with
      | Option.none => .error PyErr.keyError
      | some v =>
          match getVals key rest with
          | .error e => .error e
          | .ok vs => .ok (v :: vs)

/-- `NLToCypherConverter._get_schema_info`.  The session calls are not inside
any try/except, so a store failure propagates to the caller. -/
def _get_schema_info (env : Env) : Except PyErr SchemaInfo :=
  match env.schemaRun relTypesQuery with
  | .error e => .error e
  | .ok rows1 =>
      match getVals "rel_type" rows1 with
      | .error e => .error e
      | .ok rel_types =>
          match env.schemaRun entitiesQuery with
          | .error e => .error e
          | .ok rows2 =>
              match getVals "name" rows2 with
              | .error e => .error e
              | .ok entities => .ok ⟨rel_types, entities⟩

/-- The system prompt of `llm_based_query`. -/
def systemPromptStr : String :=
  "\n        You are an expert at converting natural language questions about Formula 1 into Cypher queries for Neo4j.\n        "

/-- The user prompt of `llm_based_query` (the f-string with the question
interpolated; note the schema info fetched beforehand is not interpolated). -/
def promptFor (question : String) : String :=
  "\nGraph Schema:\n- Nodes: Entity(name)\n- Relationships: RELATION(type, year, source_page, extracted_at)\n\nCommon relationship types:\n- \"had_race_engineer\", \"is_race_engineer_for\", \"drove_for\", \"won_championship\", \"race_for_team\"\n\nSample entities: \"Lewis Hamilton\", \"Max Verstappen\", \"Peter Bonnington\", \"Mercedes-AMG Petronas F1 Team\"\n\nConvert this question to Cypher:\n\"" ++
  question ++
  "\"\n\nRules:\n1. Use exact entity names when possible\n2. Filter by year when mentioned\n3. For relative time queries:\n   - \"before 2020\" → r.year < 2020\n   - \"after 2015\" → r.year > 2015\n   - Order by year DESC for \"before\" queries\n   - Order by year ASC for \"after\" queries\n4. Return meaningful aliases (answer, year)\n5. Use CONTAINS in WHERE clause: WHERE r.type CONTAINS 'engineer'\n6. Limit results to 5 for relative time queries\n7. Always use proper Cypher syntax: MATCH (a:Entity)-[r:RELATION]->(b:Entity) WHERE conditions\n\nExample queries:\n- MATCH (driver:Entity \x7bname: 'Lewis Hamilton'\x7d)-[r:RELATION]->(engineer:Entity) WHERE r.type CONTAINS 'engineer' AND r.year = 2017 RETURN engineer.name as answer, r.year as year\n- MATCH (engineer:Entity \x7bname: 'Peter Bonnington'\x7d)-[r:RELATION]->(driver:Entity) WHERE r.type CONTAINS 'engineer' AND r.year < 2017 RETURN driver.name as answer, r.year as year ORDER BY r.year DESC LIMIT 5\n\nReturn only the Cypher query, nothing else:\n"

/-- Fenced-code-block stripping: `cypher.split('\n')[1:-1]` rejoined, applied
when the (stripped) model output starts with three backticks. -/
def stripFences (cypher : String) : String :=
  if cypher.startsWith "```" then
    String.intercalate "\n" (((cypher.splitOn "\n").drop 1).dropLast)
  else cypher

/-- `NLToCypherConverter.llm_based_query`.  `_get_schema_info` runs before the
try block, so its failures propagate (`Except.error`); failures of the model
call itself are caught and turned into `None`. -/
def llm_based_query (env : Env) (question : String) : Except PyErr (Option String) :=
  if env.hasOpenAI = false then .ok Option.none
  else
    match _get_schema_info env with
    | .error e => .error e
    | .ok _schema_info =>
        match env.llmComplete systemPromptStr (promptFor question) with
        | .error _ => .ok Option.none
        | .ok content => .ok (some (stripFences (pyStrip content)))

/-- `NLToCypherConverter.execute_query`: the whole body is a try/except that
returns `[]` on any store failure. -/
def execute_query (env : Env) (cypher : String) : List Row :=
  match env.storeRun cypher with
  | .ok rows => rows
  | .error _ => []

/-- The result dictionary returned by `answer_question`. -/
structure AnswerDict where
  question : String
  cypher : Option String
  results : List Row
  answer : String
  approach : String
deriving DecidableEq, Repr

/-- Python truthiness of the `cypher` variable (`None` and `''` are falsy). -/
def pyTruthyOptStr (o : Option String) : Bool :=
  match o with
  | some s => s != ""
  | Option.none => false

/-- The apology dictionary returned when no query could be generated. -/
def noQueryDict (question : String) : AnswerDict :=
  ⟨question, Option.none, [], "Sorry, I couldn't understand that question.", "none"⟩

/-- `NLToCypherConverter.answer_question`.  An `Except.error` models an
uncaught Python exception escaping the method. -/
def answer_question (env : Env) (question : String) (use_llm : Bool) :
    Except PyErr AnswerDict :=
  let c0 := rule_based_query question
  match (if !pyTruthyOptStr c0 && use_llm then llm_based_query env question else .ok c0) with
  | .error e => .error e
  | .ok c1 =>
      if !pyTruthyOptStr c1 then .ok (noQueryDict question)
      else
        match c1 with
        | Option.none => .ok (noQueryDict question)
        | some cypher =>
            let results := execute_query env cypher
            match _format_answer results question with
            | .error e => .error e
            | .ok answer =>
                .ok ⟨question, some cypher, results, answer,
                     if pyTruthyOptStr c0 then "rule-based" else "llm-based"⟩

/-! ## Lemma kit: substring reasoning on character lists -/

theorem isPrefixChars_append_self : ∀ (n t : List Char), isPrefixChars n (n ++ t) = true
  | [], _ => rfl
  | c :: cs, t => by simp [isPrefixChars, isPrefixChars_append_self cs t]

theorem containsSub_of_prefixChars {s n : List Char} (h : isPrefixChars n s = true) :
    containsSub s n = true := by
  cases s with
  | nil => simpa [containsSub] using h
  | cons c t => simp [containsSub, h]

theorem containsSub_append_left :
    ∀ (A : List Char) {B n : List Char}, containsSub B n = true →
      containsSub (A ++ B) n = true
  | [], _, _, h => by simpa using h
  | a :: A', B, n, h => by
      simp only [List.cons_append, containsSub, Bool.or_eq_true]
      exact Or.inr (containsSub_append_left A' h)

/-- A needle that occurs verbatim as a middle segment is contained. -/
theorem containsSub_middle (X m Z : List Char) : containsSub (X ++ (m ++ Z)) m = true :=
  containsSub_append_left X (containsSub_of_prefixChars (isPrefixChars_append_self m Z))

/-- A needle of the form `a ++ b` is contained in `a ++ (b ++ c)`. -/
theorem containsSub_prefix_append (a b c : List Char) :
    containsSub (a ++ (b ++ c)) (a ++ b) = true := by
  have h := containsSub_of_prefixChars (isPrefixChars_append_self (a ++ b) c)
  rwa [List.append_assoc] at h

/-- A digit-free needle that is a prefix of `A ++ y ++ B` with `y` a nonempty
run of digits is already a prefix of `A`. -/
theorem isPrefixChars_of_digit_gap :
    ∀ (n A y B : List Char),
      (∀ c ∈ n, c.isDigit = false) → (∀ c ∈ y, c.isDigit = true) → y ≠ [] →
      isPrefixChars n (A ++ (y ++ B)) = true → isPrefixChars n A = true
  | [], _, _, _, _, _, _, _ => rfl
  | c :: n', [], y, B, hn, hy, hy0, h => by
      cases y with
      | nil => exact absurd rfl hy0
      | cons d y' =>
          simp only [List.nil_append, List.cons_append, isPrefixChars,
            Bool.and_eq_true, beq_iff_eq] at h
          have hc : c.isDigit = false := hn c (List.mem_cons_self c n')
          have hd : d.isDigit = true := hy d (List.mem_cons_self d y')
          rw [h.1] at hc
          rw [hc] at hd
          exact absurd hd (by simp)
  | c :: n', a :: A', y, B, hn, hy, hy0, h => by
      simp only [List.cons_append, isPrefixChars, Bool.and_eq_true, beq_iff_eq] at h ⊢
      refine ⟨h.1, ?_⟩
      exact isPrefixChars_of_digit_gap n' A' y B
        (fun x hx => hn x (List.mem_cons_of_mem c hx)) hy hy0 h.2

/-- A nonempty digit-free needle cannot start inside a run of digits. -/
theorem containsSub_digits_append :
    ∀ (y B n : List Char),
      (∀ c ∈ y, c.isDigit = true) → n ≠ [] → (∀ c ∈ n, c.isDigit = false) →
      containsSub B n = false → containsSub (y ++ B) n = false
  | [], _, _, _, _, _, hB => by simpa using hB
  | d :: y', B, n, hy, hn0, hn, hB => by
      simp only [List.cons_append, containsSub, Bool.or_eq_false_iff]
      constructor
      · cases n with
        | nil => exact absurd rfl hn0
        | cons c n' =>
            simp only [isPrefixChars, Bool.and_eq_false_iff]
            by_cases hcd : c = d
            · have hc : c.isDigit = false := hn c (List.mem_cons_self c n')
              have hd : d.isDigit = true := hy d (List.mem_cons_self d y')
              rw [hcd, hd] at hc
              exact absurd hc (by simp)
            · exact Or.inl (by simp [hcd])
      · exact containsSub_digits_append y' B n
          (fun x hx => hy x (List.mem_cons_of_mem d hx)) hn0 hn hB

/-- Occurrence analysis across a digit-valued hole: if a nonempty digit-free
needle occurs nowhere in `A` and nowhere in `B`, it does not occur in
`A ++ y ++ B` for `y` a nonempty run of digits. -/
theorem containsSub_digit_hole :
    ∀ (A y B n : List Char),
      n ≠ [] → (∀ c ∈ n, c.isDigit = false) →
      (∀ c ∈ y, c.isDigit = true) → y ≠ [] →
      containsSub A n = false → containsSub B n = false →
      containsSub (A ++ (y ++ B)) n = false
  | [], y, B, n, hn0, hn, hy, hy0, _, hB => by
      simpa using containsSub_digits_append y B n hy hn0 hn hB
  | a :: A', y, B, n, hn0, hn, hy, hy0, hA, hB => by
      simp only [containsSub, Bool.or_eq_false_iff] at hA
      simp only [List.cons_append, containsSub, Bool.or_eq_false_iff]
      constructor
      · by_contra hpre
        have hpre' : isPrefixChars n (a :: (A' ++ (y ++ B))) = true := by
          cases hv : isPrefixChars n (a :: (A' ++ (y ++ B))) with
          | true => rfl
          | false => exact absurd hv hpre
        have := isPrefixChars_of_digit_gap n (a :: A') y B hn hy hy0
          (by simpa using hpre')
        rw [this] at hA
        exact absurd hA.1 (by simp)
      · exact containsSub_digit_hole A' y B n hn0 hn hy hy0 hA.2 hB

/-! ## Lemma kit: the rule-matching loop -/

theorem ruleLoop_all_error {q : String} :
    ∀ (rules : List (List Tok × (List String → Except PyErr String))),
      (∀ p ∈ rules, ∀ gs, p.2 gs = .error PyErr.typeError) →
      ruleLoop rules q = none
  | [], _ => rfl
  | (toks, h) :: rest, hall => by
      have htail : ∀ p ∈ rest, ∀ gs, p.2 gs = .error PyErr.typeError :=
        fun p hp => hall p (List.mem_cons_of_mem _ hp)
      have hhead : ∀ gs, h gs = .error PyErr.typeError :=
        hall (toks, h) (List.mem_cons_self _ _)
      cases hs : reSearch toks q with
      | none => simp [ruleLoop, hs, ruleLoop_all_error rest htail]
      | some gs => simp [ruleLoop, hs, hhead gs, ruleLoop_all_error rest htail]

theorem ruleLoop_append_skip {q : String} :
    ∀ (pre rest : List (List Tok × (List String → Except PyErr String))),
      (∀ p ∈ pre, reSearch p.1 q = none) →
      ruleLoop (pre ++ rest) q = ruleLoop rest q
  | [], _, _ => rfl
  | (toks, h) :: pre', rest, hall => by
      have hhead : reSearch toks q = none := hall (toks, h) (List.mem_cons_self _ _)
      have htail : ∀ p ∈ pre', reSearch p.1 q = none :=
        fun p hp => hall p (List.mem_cons_of_mem _ hp)
      simp [ruleLoop, hhead, ruleLoop_append_skip pre' rest htail]

/-- Decomposition of a successful `firstMatchAux` scan: the rule list splits
into non-matching rules, the matching rule, and the remainder. -/
theorem firstMatchAux_decomp {q : String} :
    ∀ (rules : List (List Tok × (List String → Except PyErr String)))
      (i0 i : Nat) (gs : List String),
      firstMatchAux i0 rules q = some (i, gs) →
      ∃ pre p post, rules = pre ++ p :: post ∧ i = i0 + pre.length ∧
        (∀ p' ∈ pre, reSearch p'.1 q = none) ∧ reSearch p.1 q = some gs
  | [], _, _, _, h => by simp [firstMatchAux] at h
  | (toks, hd) :: rest, i0, i, gs, h => by
      cases hs : reSearch toks q with
      | some gs0 =>
          refine ⟨[], (toks, hd), rest, by simp, ?_, by simp, ?_⟩
          · simp only [firstMatchAux, hs] at h
            injection h with h'
            injection h' with h1 h2
            simp [← h1]
          · simp only [firstMatchAux, hs] at h
            injection h with h'
            injection h' with h1 h2
            rw [hs, h2]
      | none =>
          simp only [firstMatchAux, hs] at h
          obtain ⟨pre', p, post, hsplit, hi, hpre, hp⟩ :=
            firstMatchAux_decomp rest (i0 + 1) i gs h
          refine ⟨(toks, hd) :: pre', p, post, by simp [hsplit], ?_, ?_, hp⟩
          · simp only [List.length_cons]
            omega
          · intro p' hp'
            rcases List.mem_cons.mp hp' with h' | h'
            · rw [h']; exact hs
            · exact hpre p' h'

/-! ## Lemma kit: the three always-raising relative handlers -/

theorem _team_relative_query_raises (d ctx : String) :
    _team_relative_query d ctx = .error PyErr.typeError := rfl

theorem _champion_relative_query_raises (ctx : String) :
    _champion_relative_query ctx = .error PyErr.typeError := rfl

theorem _dominant_team_relative_query_raises (ctx : String) :
    _dominant_team_relative_query ctx = .error PyErr.typeError := rfl

theorem handler_team_relative_error (gs : List String) :
    handler_team_relative gs = .error PyErr.typeError := by
  match gs with
  | [] => rfl
  | [_] => rfl
  | [a, b] => exact _team_relative_query_raises a b
  | _ :: _ :: _ :: _ => rfl

theorem handler_champion_relative_error (gs : List String) :
    handler_champion_relative gs = .error PyErr.typeError := by
  match gs with
  | [] => rfl
  | [a] => exact _champion_relative_query_raises a
  | _ :: _ :: _ => rfl

theorem handler_dominant_team_relative_error (gs : List String) :
    handler_dominant_team_relative gs = .error PyErr.typeError := by
  match gs with
  | [] => rfl
  | [a] => exact _dominant_team_relative_query_raises a
  | _ :: _ :: _ => rfl

/-- One step of the loop on a matching rule whose handler (and every later
handler) raises. -/
theorem ruleLoop_cons_error {q : String} {toks : List Tok} {gs : List String}
    {h : List String → Except PyErr String}
    {post : List (List Tok × (List String → Except PyErr String))}
    (hs : reSearch toks q = some gs)
    (he : ∀ gs', h gs' = .error PyErr.typeError)
    (hall : ∀ p ∈ post, ∀ gs', p.2 gs' = .error PyErr.typeError) :
    ruleLoop ((toks, h) :: post) q = none := by
  simp only [ruleLoop, hs, he gs]
  exact ruleLoop_all_error post hall

/-- If the first firing rule sits at index 5, 6 or 7 (the three relative
rules), its handler raises and the whole loop — which `continue`s through the
remaining rules, all of which also raise on any argument list — returns
`none`. -/
theorem ruleBased_none_of_late_match {q : String} {i : Nat} {gs : List String}
    (hfm : firstMatch q = some (i, gs)) (hi : 5 ≤ i) :
    handlerAt i gs = .error PyErr.typeError ∧ rule_based_query q = none := by
  obtain ⟨pre, p, post, hsplit, hidx, hpre, hp⟩ :=
    firstMatchAux_decomp query_patterns 0 i gs hfm
  have hidx' : i = pre.length := by omega
  have hlen : pre.length + (post.length + 1) = 8 := by
    have h8 : query_patterns.length = 8 := rfl
    have := congrArg List.length hsplit
    rw [h8] at this
    simp only [List.length_append, List.length_cons] at this
    omega
  have hi7 : i ≤ 7 := by omega
  have hdrop : query_patterns.drop i = p :: post := by
    rw [hsplit, hidx']
    exact List.drop_left pre (p :: post)
  have hat : handlerAt i gs = p.2 gs := by
    unfold handlerAt
    rw [hdrop]
  have hloop : rule_based_query q = ruleLoop (p :: post) (pyStrip q) := by
    unfold rule_based_query
    rw [hsplit]
    exact ruleLoop_append_skip pre (p :: post) hpre
  interval_cases i
  · have h5 : query_patterns.drop 5 =
        [(p6toks, handler_team_relative), (p7toks, handler_champion_relative),
         (p8toks, handler_dominant_team_relative)] := rfl
    rw [h5] at hdrop
    injection hdrop with hph hpost
    rw [← hph] at hat hp
    rw [← hph, ← hpost] at hloop
    refine ⟨by rw [hat]; exact handler_team_relative_error gs, ?_⟩
    rw [hloop]
    refine ruleLoop_cons_error hp handler_team_relative_error ?_
    intro p' hp'' gs'
    rcases List.mem_cons.mp hp'' with h' | h'
    · rw [h']; exact handler_champion_relative_error gs'
    · rw [List.mem_singleton.mp h']
      exact handler_dominant_team_relative_error gs'
  · have h6 : query_patterns.drop 6 =
        [(p7toks, handler_champion_relative),
         (p8toks, handler_dominant_team_relative)] := rfl
    rw [h6] at hdrop
    injection hdrop with hph hpost
    rw [← hph] at hat hp
    rw [← hph, ← hpost] at hloop
    refine ⟨by rw [hat]; exact handler_champion_relative_error gs, ?_⟩
    rw [hloop]
    refine ruleLoop_cons_error hp handler_champion_relative_error ?_
    intro p' hp'' gs'
    rw [List.mem_singleton.mp hp'']
    exact handler_dominant_team_relative_error gs'
  · have h7 : query_patterns.drop 7 =
        [(p8toks, handler_dominant_team_relative)] := rfl
    rw [h7] at hdrop
    injection hdrop with hph hpost
    rw [← hph] at hat hp
    rw [← hph, ← hpost] at hloop
    refine ⟨by rw [hat]; exact handler_dominant_team_relative_error gs, ?_⟩
    rw [hloop]
    refine ruleLoop_cons_error hp handler_dominant_team_relative_error ?_
    intro p' hp'' gs'
    simp at hp''

/-! ## Claim theorems -/

/-- C2 (counterexample): on the question
`"what team did x drive for before 1990? who won championship before 2000?"`
the first firing rule is the team-relative rule (index 5); its handler raises,
and the loop then invokes the handler of the later championship-relative rule
(index 6) as well — the recorded handler invocations are `[5, 6]`, so matching
does retry later rules, contradicting the claimed no-retry policy (the overall
result is still no rule-based match). -/
theorem c2_no_retry_counterexample :
    handlerAttempts
        "what team did x drive for before 1990? who won championship before 2000?" =
      [5, 6] ∧
    rule_based_query
        "what team did x drive for before 1990? who won championship before 2000?" =
      none := by
  constructor
  · decide
  · decide

/-- C2 (amended): when the first firing rule's handler raises — which happens
precisely when that rule is one of the three relative rules at indices 5, 6, 7
— the loop `continue`s with the later rules instead of stopping; every such
later rule's handler also raises on any arguments, so the overall result is
nevertheless "no rule-based match" (`none`). -/
theorem c2_no_retry_amended (q : String) (i : Nat) (gs : List String)
    (hfm : firstMatch q = some (i, gs)) (hi : 5 ≤ i) :
    handlerAt i gs = .error PyErr.typeError ∧ rule_based_query q = none :=
  ruleBased_none_of_late_match hfm hi

/-- C2 (witness): concrete instance of `c2_no_retry_amended` at the question
`"what team did max verstappen drive for after 2018?"`, whose first firing
rule is index 5. -/
theorem c2_no_retry_witness :
    handlerAt 5 ["max verstappen", "2018"] = .error PyErr.typeError ∧
    rule_based_query "what team did max verstappen drive for after 2018?" = none :=
  c2_no_retry_amended "what team did max verstappen drive for after 2018?" 5
    ["max verstappen", "2018"] (by decide) (by decide)

/-- C3 (counterexample): rule matching is case-sensitive, not
case-insensitive: the demo question `"Who won the championship in 2017?"`
(capital `W`) fires no rule at all, while the same text in lower case fires
the absolute championship rule — so a question differing from a pattern only
in letter case does not still fire that rule. -/
theorem c3_case_counterexample :
    rule_based_query "Who won the championship in 2017?" = none ∧
    rule_based_query "who won the championship in 2017?" =
      some (_champion_query "2017") := by
  constructor
  · decide
  · decide

/-- C3 (amended): rules are scanned in fixed registration order over the
trimmed question text, matching anywhere in the text but CASE-SENSITIVELY
(`re.search` is used with no `re.IGNORECASE` flag); the first firing rule's
captured groups are passed positionally to its handler, and when the handler
succeeds its query is the loop's result. -/
theorem c3_first_match_amended (q : String) (i : Nat) (gs : List String) (c : String)
    (hfm : firstMatch q = some (i, gs)) (hok : handlerAt i gs = .ok c) :
    rule_based_query q = some c := by
  obtain ⟨pre, p, post, hsplit, hidx, hpre, hp⟩ :=
    firstMatchAux_decomp query_patterns 0 i gs hfm
  have hidx' : i = pre.length := by omega
  have hdrop : query_patterns.drop i = p :: post := by
    rw [hsplit, hidx']
    exact List.drop_left pre (p :: post)
  have hat : handlerAt i gs = p.2 gs := by
    unfold handlerAt
    rw [hdrop]
  rw [hat] at hok
  unfold rule_based_query
  rw [hsplit, ruleLoop_append_skip pre (p :: post) hpre]
  obtain ⟨toks, hd⟩ := p
  have hok' : hd gs = .ok c := hok
  simp only [ruleLoop, hp, hok']

/-- C3 (witness): concrete instance of `c3_first_match_amended`: the lowercase
question `"who won championship during 2005?"` fires rule index 3 with group
`["2005"]` and produces the absolute championship query. -/
theorem c3_first_match_witness :
    rule_based_query "who won championship during 2005?" =
      some (_champion_query "2005") :=
  c3_first_match_amended "who won championship during 2005?" 3 ["2005"]
    (_champion_query "2005") (by decide) rfl

/-- C5: the handlers `_team_relative_query`, `_champion_relative_query` and
`_dominant_team_relative_query` all raise `TypeError` before building any
query (each unpacks the single optional year returned by
`_parse_temporal_context` into two variables), and consequently any question
whose first firing rule is one of those three shapes (indices 5, 6, 7) yields
no rule-based query. -/
theorem c5_relative_handlers_raise :
    (∀ d ctx : String, _team_relative_query d ctx = .error PyErr.typeError) ∧
    (∀ ctx : String, _champion_relative_query ctx = .error PyErr.typeError) ∧
    (∀ ctx : String, _dominant_team_relative_query ctx = .error PyErr.typeError) ∧
    (∀ (q : String) (i : Nat) (gs : List String),
      firstMatch q = some (i, gs) → 5 ≤ i → rule_based_query q = none) :=
  ⟨_team_relative_query_raises, _champion_relative_query_raises,
   _dominant_team_relative_query_raises,
   fun _ _ _ hfm hi => (ruleBased_none_of_late_match hfm hi).2⟩

/-- C5 (witness): concrete instance of `c5_relative_handlers_raise`: the
team-relative handler raises on concrete arguments, and the question
`"which team dominated the season after 2015?"` (first firing rule index 7)
yields no rule-based query. -/
theorem c5_relative_handlers_raise_witness :
    _team_relative_query "max verstappen" "after 2018" = .error PyErr.typeError ∧
    rule_based_query "which team dominated the season after 2015?" = none :=
  ⟨c5_relative_handlers_raise.1 "max verstappen" "after 2018",
   c5_relative_handlers_raise.2.2.2 "which team dominated the season after 2015?" 7
     ["2015"] (by decide) (by decide)⟩

/-- C6 (counterexample): `_parse_temporal_context` performs no range check:
the context `"1234"`, whose first 4-digit token lies outside `[1950, 2030]`,
resolves to the year 1234 (and `"9999"` to 9999), contradicting the claimed
filtering to `[1950, 2030]`. -/
theorem c6_year_range_counterexample :
    _parse_temporal_context "1234" = some 1234 ∧
    _parse_temporal_context "9999" = some 9999 := by
  constructor
  · decide
  · decide

/-- C6 (amended): the temporal resolver extracts the first 4-digit token of
the context as the year with NO range restriction: any four consecutive
digits at the front of the context resolve to their numeric value, whatever
it is. -/
theorem c6_year_extraction_amended (c1 c2 c3 c4 : Char) (s : List Char)
    (h1 : c1.isDigit = true) (h2 : c2.isDigit = true)
    (h3 : c3.isDigit = true) (h4 : c4.isDigit = true) :
    _parse_temporal_context (String.mk (c1 :: c2 :: c3 :: c4 :: s)) =
      some (digitsToNat [c1, c2, c3, c4]) ∧
    digitsToNat [c1, c2, c3, c4] =
      1000 * (c1.toNat - 48) + 100 * (c2.toNat - 48) +
        10 * (c3.toNat - 48) + (c4.toNat - 48) := by
  constructor
  · simp [_parse_temporal_context, findYearStr, fourDigitsAt, h1, h2, h3, h4]
  · simp only [digitsToNat, List.foldl]
    ring

/-- C6 (witness): concrete instance of `c6_year_extraction_amended`: the
out-of-range token 2500 resolves to 2500. -/
theorem c6_year_extraction_witness :
    _parse_temporal_context (String.mk ['2', '5', '0', '0']) = some 2500 := by
  have h := c6_year_extraction_amended '2' '5' '0' '0' []
    (by decide) (by decide) (by decide) (by decide)
  rw [h.1]
  decide

/-- C4 (counterexample): the claim's own scenario fails: the question
`"What team did Max Verstappen drive for after 2018?"` produces NO rule-based
query at all (`none`), not an ascending capped-at-5 query — the pattern is
lower-case-only, and even the lower-cased question reaches the team-relative
handler, which raises. -/
theorem c4_relative_order_counterexample :
    rule_based_query "What team did Max Verstappen drive for after 2018?" = none ∧
    rule_based_query "what team did max verstappen drive for after 2018?" = none := by
  constructor
  · decide
  · decide

/-- C4 (amended): the before-descending/after-ascending with `LIMIT 5` policy
is realised only by the reverse race-engineer relative handler (the one
relative handler that ever builds a query): for every captured name and year
group, with qualifier "before" its query carries `ORDER BY r.year DESC` and
`LIMIT 5`, and with "after" it carries `ORDER BY r.year ASC` and `LIMIT 5`;
the team/champion/dominant relative shapes yield no query (see C5). -/
theorem c4_relative_order_amended (name y : String) :
    strContains (_race_engineer_reverse_relative_query name "before" y)
        "ORDER BY r.year DESC" = true ∧
    strContains (_race_engineer_reverse_relative_query name "before" y)
        "LIMIT 5" = true ∧
    strContains (_race_engineer_reverse_relative_query name "after" y)
        "ORDER BY r.year ASC" = true ∧
    strContains (_race_engineer_reverse_relative_query name "after" y)
        "LIMIT 5" = true := by
  have hqb : _race_engineer_reverse_relative_query name "before" y =
      ((((("\n            MATCH (engineer:Entity \x7bname: '" ++ name) ++
          "'\x7d)-[r:RELATION]->(driver:Entity)\n            WHERE r.type CONTAINS 'engineer' AND ") ++
          ("r.year < " ++ Nat.repr (pyIntDigits y))) ++
          "\n            RETURN driver.name as answer, r.year as year\n            ") ++
          "ORDER BY r.year DESC") ++ "\n            LIMIT 5\n            " := rfl
  have hqa : _race_engineer_reverse_relative_query name "after" y =
      ((((("\n            MATCH (engineer:Entity \x7bname: '" ++ name) ++
          "'\x7d)-[r:RELATION]->(driver:Entity)\n            WHERE r.type CONTAINS 'engineer' AND ") ++
          ("r.year > " ++ Nat.repr (pyIntDigits y))) ++
          "\n            RETURN driver.name as answer, r.year as year\n            ") ++
          "ORDER BY r.year ASC") ++ "\n            LIMIT 5\n            " := rfl
  refine ⟨?_, ?_, ?_, ?_⟩
  · simp only [strContains]
    rw [hqb]
    simp only [String.data_append, List.append_assoc]
    exact containsSub_append_left _ (containsSub_append_left _
      (containsSub_append_left _ (containsSub_append_left _
        (containsSub_append_left _ (containsSub_middle _ _ _)))))
  · simp only [strContains]
    rw [hqb]
    simp only [String.data_append, List.append_assoc]
    exact containsSub_append_left _ (containsSub_append_left _
      (containsSub_append_left _ (containsSub_append_left _
        (containsSub_append_left _ (containsSub_append_left _
          (containsSub_append_left _ (by decide)))))))
  · simp only [strContains]
    rw [hqa]
    simp only [String.data_append, List.append_assoc]
    exact containsSub_append_left _ (containsSub_append_left _
      (containsSub_append_left _ (containsSub_append_left _
        (containsSub_append_left _ (containsSub_middle _ _ _)))))
  · simp only [strContains]
    rw [hqa]
    simp only [String.data_append, List.append_assoc]
    exact containsSub_append_left _ (containsSub_append_left _
      (containsSub_append_left _ (containsSub_append_left _
        (containsSub_append_left _ (containsSub_append_left _
          (containsSub_append_left _ (by decide)))))))

/-- C7 (counterexample): the dominant-team absolute handler does NOT return
an unbounded result set: its query carries `ORDER BY dominance_score DESC`
and `LIMIT 1`, contradicting "no result limit ... for every absolute-year
handler including the dominant-team handler". -/
theorem c7_absolute_no_limit_counterexample :
    strContains (_dominant_team_query "2020") "LIMIT 1" = true ∧
    strContains (_dominant_team_query "2020") "ORDER BY dominance_score DESC" = true := by
  constructor
  · decide
  · decide

/-- C7 (amended): for every captured 4-digit year group `y`, the champion and
team absolute handlers embed the equality filter `r.year = y` and no `LIMIT`
clause at all; the dominant-team absolute handler also embeds the equality
filter but ranks by dominance score and caps the result at 1 (`LIMIT 1`). -/
theorem c7_absolute_filters_amended (y : String)
    (hy : ∀ c ∈ y.data, c.isDigit = true) (hy0 : y.data ≠ []) :
    strContains (_champion_query y) ("r.year = " ++ y) = true ∧
    strContains (_champion_query y) "LIMIT" = false ∧
    strContains (_team_query "Lewis Hamilton" y) ("r.year = " ++ y) = true ∧
    strContains (_team_query "Lewis Hamilton" y) "LIMIT" = false ∧
    strContains (_dominant_team_query y) ("r.year = " ++ y) = true ∧
    strContains (_dominant_team_query y) "LIMIT 1" = true := by
  have hne : ("LIMIT" : String).data ≠ [] := by decide
  have hnd : ∀ c ∈ ("LIMIT" : String).data, c.isDigit = false := by decide
  refine ⟨?_, ?_, ?_, ?_, ?_, ?_⟩
  · simp only [strContains]
    rw [show _champion_query y =
        (("\n        MATCH (driver:Entity)-[r:RELATION]->(championship:Entity)\n        WHERE (r.type CONTAINS 'champion' OR r.type CONTAINS 'won')\n        AND " ++
            "r.year = ") ++ y) ++
          "\n        RETURN driver.name as answer, r.year as year\n        " from rfl]
    simp only [String.data_append, List.append_assoc]
    exact containsSub_append_left _ (containsSub_prefix_append _ _ _)
  · simp only [strContains]
    rw [show _champion_query y =
        ("\n        MATCH (driver:Entity)-[r:RELATION]->(championship:Entity)\n        WHERE (r.type CONTAINS 'champion' OR r.type CONTAINS 'won')\n        AND r.year = " ++
            y) ++
          "\n        RETURN driver.name as answer, r.year as year\n        " from rfl]
    simp only [String.data_append, List.append_assoc]
    exact containsSub_digit_hole _ _ _ _ hne hnd hy hy0 (by decide) (by decide)
  · simp only [strContains]
    rw [show _team_query "Lewis Hamilton" y =
        (("\n        MATCH (driver:Entity \x7bname: 'Lewis Hamilton'\x7d)-[r:RELATION]->(team:Entity)\n        WHERE (r.type CONTAINS 'drove' OR r.type CONTAINS 'team' OR r.type CONTAINS 'race')\n        AND " ++
            "r.year = ") ++ y) ++
          "\n        RETURN team.name as answer, r.year as year\n        " from rfl]
    simp only [String.data_append, List.append_assoc]
    exact containsSub_append_left _ (containsSub_prefix_append _ _ _)
  · simp only [strContains]
    rw [show _team_query "Lewis Hamilton" y =
        ("\n        MATCH (driver:Entity \x7bname: 'Lewis Hamilton'\x7d)-[r:RELATION]->(team:Entity)\n        WHERE (r.type CONTAINS 'drove' OR r.type CONTAINS 'team' OR r.type CONTAINS 'race')\n        AND r.year = " ++
            y) ++
          "\n        RETURN team.name as answer, r.year as year\n        " from rfl]
    simp only [String.data_append, List.append_assoc]
    exact containsSub_digit_hole _ _ _ _ hne hnd hy hy0 (by decide) (by decide)
  · simp only [strContains]
    rw [show _dominant_team_query y =
        (("\n        MATCH (team:Entity)-[r:RELATION]->(achievement:Entity)\n        WHERE " ++
            "r.year = ") ++ y) ++
          "\n        AND (r.type CONTAINS 'won' OR r.type CONTAINS 'champion' OR r.type CONTAINS 'dominated')\n        RETURN team.name as answer, count(r) as dominance_score\n        ORDER BY dominance_score DESC\n        LIMIT 1\n        " from rfl]
    simp only [String.data_append, List.append_assoc]
    exact containsSub_append_left _ (containsSub_prefix_append _ _ _)
  · simp only [strContains]
    rw [show _dominant_team_query y =
        ("\n        MATCH (team:Entity)-[r:RELATION]->(achievement:Entity)\n        WHERE r.year = " ++
            y) ++
          "\n        AND (r.type CONTAINS 'won' OR r.type CONTAINS 'champion' OR r.type CONTAINS 'dominated')\n        RETURN team.name as answer, count(r) as dominance_score\n        ORDER BY dominance_score DESC\n        LIMIT 1\n        " from rfl]
    simp only [String.data_append, List.append_assoc]
    exact containsSub_append_left _ (containsSub_append_left _ (by decide))

/-- C7 (witness): concrete instance of `c7_absolute_filters_amended` at the
captured year `"2017"`. -/
theorem c7_absolute_filters_witness :
    strContains (_champion_query "2017") ("r.year = " ++ "2017") = true ∧
    strContains (_champion_query "2017") "LIMIT" = false :=
  ⟨(c7_absolute_filters_amended "2017" (by decide) (by decide)).1,
   (c7_absolute_filters_amended "2017" (by decide) (by decide)).2.1⟩

/-- C9: `execute_query` never propagates a store failure: if the store raises
on the query it returns the empty row list, and if the store succeeds it
returns exactly the store's rows. -/
theorem c9_execute_query_safe (env : Env) (cypher : String) :
    (∀ e, env.storeRun cypher = .error e → execute_query env cypher = []) ∧
    (∀ rows, env.storeRun cypher = .ok rows → execute_query env cypher = rows) := by
  constructor
  · intro e he
    simp [execute_query, he]
  · intro rows hr
    simp [execute_query, hr]

/-- C9 (witness): concrete instance of `c9_execute_query_safe` on a store
that raises: the result is the empty row list, not an exception. -/
theorem c9_execute_query_safe_witness :
    execute_query
        ⟨false, fun _ => .ok [], fun _ _ => .ok "",
         fun _ => .error PyErr.runtimeError⟩
        "MATCH (n) RETURN n" = [] :=
  (c9_execute_query_safe
      ⟨false, fun _ => .ok [], fun _ _ => .ok "",
       fun _ => .error PyErr.runtimeError⟩
      "MATCH (n) RETURN n").1 PyErr.runtimeError rfl

/-- C10: `_build_temporal_filter` maps every relation other than "before" and
"after" (in particular "during") to the equality filter `r.year = <year>`;
consequently the question `"who was bono race engineer for during 2017?"`,
whose first firing rule is the reverse race-engineer rule with keyword
"during", generates the equality-filtered query with no ordering clause and
no result limit. -/
theorem c10_during_equality :
    (∀ (year : Nat) (rel : String), rel ≠ "before" → rel ≠ "after" →
      _build_temporal_filter year rel = "r.year = " ++ Nat.repr year) ∧
    rule_based_query "who was bono race engineer for during 2017?" =
      some (_race_engineer_reverse_relative_query "bono" "during" "2017") ∧
    strContains (_race_engineer_reverse_relative_query "bono" "during" "2017")
        "r.year = 2017" = true ∧
    strContains (_race_engineer_reverse_relative_query "bono" "during" "2017")
        "ORDER BY" = false ∧
    strContains (_race_engineer_reverse_relative_query "bono" "during" "2017")
        "LIMIT" = false := by
  refine ⟨?_, by decide, by decide, by decide, by decide⟩
  intro year rel h1 h2
  simp [_build_temporal_filter, h1, h2]

/-- C10 (witness): concrete instance of the universal filter clause of
`c10_during_equality` at year 1999 and relation "during". -/
theorem c10_during_equality_witness :
    _build_temporal_filter 1999 "during" = "r.year = 1999" := by
  have h := c10_during_equality.1 1999 "during" (by decide) (by decide)
  rw [h]
  rfl

/-- C8 (counterexample): the multiple-row branch of `_format_answer` renders
a row as `"<answer> (<year>)"`, not `"<answer> (in <year>)"` as the one-row
rule does: two rows with truthy years join to `"Max (2016); Seb (2017)"`,
which contains no `" (in "`. -/
theorem c8_multi_row_counterexample :
    _format_answer
        [[("answer", Val.s "Max"), ("year", Val.i 2016)],
         [("answer", Val.s "Seb"), ("year", Val.i 2017)]] "q" =
      .ok "Max (2016); Seb (2017)" ∧
    strContains "Max (2016); Seb (2017)" " (in " = false := by
  refine ⟨rfl, by decide⟩

/-- C8 (amended): for more than one result row the formatter renders each of
the FIRST FIVE rows as `"<answer> (<year>)"` (no `"in "`, unlike the one-row
rendering rule) and joins them with `"; "`; a sixth row is dropped. -/
theorem c8_multi_row_amended
    (q a1 y1 a2 y2 a3 y3 a4 y4 a5 y5 a6 y6 : String)
    (h1 : y1 ≠ "") (h2 : y2 ≠ "") (h3 : y3 ≠ "")
    (h4 : y4 ≠ "") (h5 : y5 ≠ "") :
    _format_answer
        [[("answer", Val.s a1), ("year", Val.s y1)],
         [("answer", Val.s a2), ("year", Val.s y2)],
         [("answer", Val.s a3), ("year", Val.s y3)],
         [("answer", Val.s a4), ("year", Val.s y4)],
         [("answer", Val.s a5), ("year", Val.s y5)],
         [("answer", Val.s a6), ("year", Val.s y6)]] q =
      .ok ((((a1 ++ " (" ++ y1 ++ ")" ++ "; " ++ (a2 ++ " (" ++ y2 ++ ")")) ++
              "; " ++ (a3 ++ " (" ++ y3 ++ ")")) ++
              "; " ++ (a4 ++ " (" ++ y4 ++ ")")) ++
              "; " ++ (a5 ++ " (" ++ y5 ++ ")")) := by
  simp [_format_answer, formatRowsMulti, formatRowMulti, rowGet, Val.truthy,
    Val.toStr, joinSemicolon, bne_iff_ne, h1, h2, h3, h4, h5]

/-- C8 (witness): concrete instance of `c8_multi_row_amended`. -/
theorem c8_multi_row_witness :
    _format_answer
        [[("answer", Val.s "A"), ("year", Val.s "2001")],
         [("answer", Val.s "B"), ("year", Val.s "2002")],
         [("answer", Val.s "C"), ("year", Val.s "2003")],
         [("answer", Val.s "D"), ("year", Val.s "2004")],
         [("answer", Val.s "E"), ("year", Val.s "2005")],
         [("answer", Val.s "F"), ("year", Val.s "2006")]] "q" =
      .ok "A (2001); B (2002); C (2003); D (2004); E (2005)" := by
  have h := c8_multi_row_amended "q" "A" "2001" "B" "2002" "C" "2003" "D" "2004"
    "E" "2005" "F" "2006" (by decide) (by decide) (by decide) (by decide) (by decide)
  rw [h]
  rfl

/-! ## Lemma kit: totality of the formatter on well-formed rows -/

theorem formatRowMulti_ok (r : Row) (hr : r ≠ []) :
    ∃ s, formatRowMulti r = .ok s := by
  unfold formatRowMulti
  cases ha : rowGet r "answer" with
  | none =>
      simp only [ha]
      cases r with
      | nil => exact absurd rfl hr
      | cons kv rest =>
          obtain ⟨k, v⟩ := kv
          exact ⟨v.toStr, rfl⟩
  | some answer =>
      simp only [ha]
      cases htv : ((rowGet r "year").getD (Val.s "")).truthy with
      | true =>
          exact ⟨answer.toStr ++ " (" ++ ((rowGet r "year").getD (Val.s "")).toStr ++ ")",
            by simp⟩
      | false => exact ⟨answer.toStr, by simp⟩

theorem formatRowSingle_ok (r : Row) (hr : r ≠ []) :
    ∃ s, formatRowSingle r = .ok s := by
  unfold formatRowSingle
  cases ha : rowGet r "answer" with
  | none =>
      simp only [ha]
      cases r with
      | nil => exact absurd rfl hr
      | cons kv rest =>
          obtain ⟨k, v⟩ := kv
          exact ⟨v.toStr, rfl⟩
  | some answer =>
      simp only [ha]
      cases htv : ((rowGet r "year").getD (Val.s "")).truthy with
      | true =>
          exact ⟨answer.toStr ++ " (in " ++ ((rowGet r "year").getD (Val.s "")).toStr ++ ")",
            by simp⟩
      | false => exact ⟨answer.toStr, by simp⟩

theorem formatRowsMulti_ok :
    ∀ (rows : List Row), (∀ r ∈ rows, r ≠ []) →
      ∃ ss, formatRowsMulti rows = .ok ss
  | [], _ => ⟨[], rfl⟩
  | r :: rs, h => by
      obtain ⟨s, hs⟩ := formatRowMulti_ok r (h r (List.mem_cons_self r rs))
      obtain ⟨ss, hss⟩ :=
        formatRowsMulti_ok rs (fun r' hr' => h r' (List.mem_cons_of_mem r hr'))
      exact ⟨s :: ss, by simp [formatRowsMulti, hs, hss]⟩

theorem format_answer_ok (rows : List Row) (q : String)
    (h : ∀ r ∈ rows, r ≠ []) : ∃ s, _format_answer rows q = .ok s := by
  match rows with
  | [] => exact ⟨_, rfl⟩
  | [r] =>
      obtain ⟨s, hs⟩ := formatRowSingle_ok r (h r (List.mem_cons_self r []))
      exact ⟨s, by simpa [_format_answer] using hs⟩
  | r1 :: r2 :: rest =>
      obtain ⟨ss, hss⟩ := formatRowsMulti_ok ((r1 :: r2 :: rest).take 5)
        (fun r hr => h r (List.take_subset 5 (r1 :: r2 :: rest) hr))
      simp only [List.take_succ_cons] at hss
      exact ⟨joinSemicolon ss, by simp [_format_answer, hss]⟩

theorem execute_query_rows_ne (env : Env) (cypher : String)
    (h2 : ∀ c rows, env.storeRun c = .ok rows → ∀ r ∈ rows, r ≠ []) :
    ∀ r ∈ execute_query env cypher, r ≠ [] := by
  intro r hr
  unfold execute_query at hr
  cases hs : env.storeRun cypher with
  | ok rows =>
      rw [hs] at hr
      exact h2 cypher rows hs r hr
  | error e =>
      rw [hs] at hr
      simp at hr

theorem llm_based_query_ok (env : Env) (q : String)
    (h : ∃ si, _get_schema_info env = .ok si) :
    ∃ o, llm_based_query env q = .ok o := by
  obtain ⟨si, hsi⟩ := h
  by_cases henv : env.hasOpenAI = false
  · exact ⟨Option.none, by simp [llm_based_query, henv]⟩
  · cases hc : env.llmComplete systemPromptStr (promptFor q) with
    | error e =>
        exact ⟨Option.none, by simp [llm_based_query, henv, hsi, hc]⟩
    | ok content =>
        exact ⟨some (stripFences (pyStrip content)),
          by simp [llm_based_query, henv, hsi, hc]⟩

/-- C1 (counterexample): `answer_question` CAN raise: with the fallback
enabled and a graph store whose session raises, `_get_schema_info` is called
outside any try/except inside `llm_based_query`, and the exception propagates
out of `answer_question` instead of producing a result dictionary (note also
that no `error` approach exists anywhere in the code — the approaches are
only `rule-based`, `llm-based` and `none`). -/
theorem c1_never_raises_counterexample :
    answer_question
        ⟨true, fun _ => .error PyErr.runtimeError, fun _ _ => .ok "",
         fun _ => .ok []⟩
        "hello" true = .error PyErr.runtimeError := rfl

/-- C1 (amended): `answer_question` returns a result dictionary for every
question, fallback flag and model behaviour, PROVIDED the schema-info fetch
does not raise and every row returned by the store is a non-empty mapping;
when no query is generated the dictionary carries the apology answer with
approach "none" (there is no `error` approach in the code). -/
theorem c1_never_raises_amended (env : Env) (q : String) (u : Bool)
    (h1 : ∃ si, _get_schema_info env = .ok si)
    (h2 : ∀ c rows, env.storeRun c = .ok rows → ∀ r ∈ rows, r ≠ []) :
    ∃ d, answer_question env q u = .ok d ∧
      (d.cypher = Option.none →
        d.approach = "none" ∧
        d.answer = "Sorry, I couldn't understand that question.") := by
  obtain ⟨ollm, hollm⟩ := llm_based_query_ok env q h1
  simp only [answer_question]
  by_cases hb : (!pyTruthyOptStr (rule_based_query q) && u) = true
  · rw [if_pos hb, hollm]
    cases hto : pyTruthyOptStr ollm with
    | false =>
        refine ⟨noQueryDict q, by simp [hto], fun _ => ⟨rfl, rfl⟩⟩
    | true =>
        cases ollm with
        | none => simp [pyTruthyOptStr] at hto
        | some cy =>
            obtain ⟨ans, hans⟩ := format_answer_ok (execute_query env cy) q
              (execute_query_rows_ne env cy h2)
            refine ⟨⟨q, some cy, execute_query env cy, ans,
              if pyTruthyOptStr (rule_based_query q) then "rule-based"
              else "llm-based"⟩, ?_, ?_⟩
            · simp [hto, hans]
            · intro hcy
              simp at hcy
  · rw [if_neg hb]
    cases hto : pyTruthyOptStr (rule_based_query q) with
    | false =>
        refine ⟨noQueryDict q, by simp [hto], fun _ => ⟨rfl, rfl⟩⟩
    | true =>
        cases hc0v : rule_based_query q with
        | none => rw [hc0v] at hto; simp [pyTruthyOptStr] at hto
        | some cy =>
            obtain ⟨ans, hans⟩ := format_answer_ok (execute_query env cy) q
              (execute_query_rows_ne env cy h2)
            refine ⟨⟨q, some cy, execute_query env cy, ans,
              if pyTruthyOptStr (rule_based_query q) then "rule-based"
              else "llm-based"⟩, ?_, ?_⟩
            · rw [hc0v] at hto ⊢
              simp [hto, hans]
            · intro hcy
              simp at hcy

/-- C1 (witness): concrete instance of `c1_never_raises_amended` on an
environment whose store succeeds with empty row sets and an unrecognized
question: a result dictionary is returned. -/
theorem c1_never_raises_witness :
    ∃ d, answer_question
        ⟨false, fun _ => .ok [], fun _ _ => .ok "", fun _ => .ok []⟩
        "hello" false = .ok d ∧
      (d.cypher = Option.none →
        d.approach = "none" ∧
        d.answer = "Sorry, I couldn't understand that question.") :=
  c1_never_raises_amended
    ⟨false, fun _ => .ok [], fun _ _ => .ok "", fun _ => .ok []⟩
    "hello" false ⟨⟨[], []⟩, rfl⟩
    (by
      intro c rows h r hr
      injection h with h2
      rw [← h2] at hr
      simp at hr)

end TKGF1
